import Mathlib

/-!
Verification of the tournamention profile-command pipeline and the
tournament-selection algorithm, shallowly embedded from
`src/backend/schemas/guildsettings.ts`.

Machine integers do not overflow in the source (ids and timestamps are
compared, never added), so timestamps are `Nat` and point totals are `Int`.
Fallible code (JS exceptions, promise rejections) is embedded as
`Except String`.
-/

/-- MongoDB ObjectId as used by the source: the only observation the code
makes of an `_id` is `_id.getTimestamp().getTime()`, the creation timestamp
in milliseconds. -/
structure ObjectId where
  timestampMs : Nat
  deriving Repr, DecidableEq

/-- `_id.getTimestamp().getTime()` from the source. -/
def ObjectId.getTimestampTime (o : ObjectId) : Nat := o.timestampMs

/-- A tournament record (`Tournament` of `tournament.js`), restricted to the
fields the selection algorithm reads: `_id`, `guildID`, `name`, `active`.
`name : Option String` models a possibly-missing string field; JS truthiness
of `name` (`!prevTournament.name`) is false for both a missing name and the
empty string. -/
structure Tournament where
  _id : ObjectId
  guildID : String
  name : Option String
  active : Bool
  deriving Repr, DecidableEq

/-- JS falsiness of the `name` field: `!t.name` is `true` iff the name is
missing (`undefined`) or the empty string. -/
def nameFalsy : Option String → Bool
  | none => true
  | some s => s = ""

/-- The reducer body of `getCurrentTournament` (guildsettings.ts lines 19-25),
verbatim from the source:
`!prevTournament.name && prevTimestamp > currTimestamp ? prev : curr`. -/
def currentTournamentStep (prev curr : Tournament) : Tournament :=
  if nameFalsy prev.name
      && decide (prev._id.getTimestampTime > curr._id.getTimestampTime)
  then prev else curr

/-- JavaScript `Array.prototype.reduce` without an initial value: on an empty
array it throws `TypeError: Reduce of empty array with no initial value`; on
`x :: xs` it folds `f` left-to-right with `x` as the initial accumulator
(the callback is not invoked for a one-element array). -/
def jsReduceNoInit (f : α → α → α) : List α → Except String α
  | [] => .error "TypeError: Reduce of empty array with no initial value"
  | x :: xs => .ok (xs.foldl f x)

/-- `GuildSettings.getCurrentTournament` (guildsettings.ts lines 12-27).
`store` stands for the persistence collection; `TournamentModel.find({
guildID })` is the sub-list of records whose `guildID` matches. The final
`activeTournament ? activeTournament : null` is modelled by `some`: a
document object is always truthy, so when the reduce returns at all the
result is present. The reduce itself may throw (empty active set), which is
the `Except.error` case. -/
def getCurrentTournament (guildID : String) (store : List Tournament) :
    Except String (Option Tournament) :=
  let guildTournaments := store.filter (fun t => t.guildID = guildID)
  let activeFiltered := guildTournaments.filter (fun t => t.active)
  match jsReduceNoInit currentTournamentStep activeFiltered with
  | .error e => .error e
  | .ok t => .ok (some t)

/-- The comparison rule exactly as the spec words it (section 4.6): "if prev
has no name and prev's timestamp is newer than curr's, keep prev, otherwise
take curr". Stated from the spec's words, to be compared with
`currentTournamentStep`, which is stated from the source. -/
def specOneSidedRule (prev curr : Tournament) : Tournament :=
  if nameFalsy prev.name
      && decide (curr._id.getTimestampTime < prev._id.getTimestampTime)
  then prev else curr

/-! ## The profile command pipeline -/

/-- A chat-platform user; the code reads `.id` off `options.get('user')?.user`
and off `interaction.member!.user`. -/
structure RequestUser where
  id : String
  deriving Repr, DecidableEq

/-- The value of `interaction.options.get('user', false)` when the option is
present: a `CommandInteractionOption` whose `user` sub-field may itself be
absent. -/
structure UserOption where
  user : Option RequestUser
  deriving Repr, DecidableEq

/-- `LimitedCommandInteraction`, restricted to the fields the profile
validator reads: `guildId`, `options.get('user', false)` (absent when the
option was not supplied), and the invoking member's user (the code asserts
`member!` non-null, so the member is modelled as present). -/
structure LimitedCommandInteraction where
  guildId : String
  userOption : Option UserOption
  memberUser : RequestUser
  deriving Repr, DecidableEq

/-- `ProfileSolverParams` (guildsettings.ts lines 88-91). -/
structure ProfileSolverParams where
  guildId : String
  memberId : String
  deriving Repr, DecidableEq

/-- A fetched guild member; the solver reads `displayName` and
`user.avatarURL()` (which may be null, hence `Option`). -/
structure Member where
  displayName : String
  avatarURL : Option String
  deriving Repr, DecidableEq

/-- A contestant record returned by `getOrCreateContestant`. -/
structure Contestant where
  id : String
  deriving Repr, DecidableEq

/-- `userDetails` part of the success body. -/
structure UserDetails where
  name : String
  icon : String
  deriving Repr, DecidableEq

/-- Body of the `SUCCESS_DETAILS` outcome (guildsettings.ts lines 66-76). -/
structure ProfileSuccessBody where
  currentPoints : Int
  careerPoints : Int
  userDetails : UserDetails
  deriving Repr, DecidableEq

/-- Body of the `FAIL_VALIDATION` outcome (guildsettings.ts lines 135-140):
constraint id, field name, offending value, context message. -/
structure ValidationFailureBody where
  constraint : String
  field : String
  value : String
  context : String
  deriving Repr, DecidableEq

/-- The status tags the profile command produces: the command-specific
`ProfileSpecificStatus.SUCCESS_DETAILS` plus the generic `OutcomeStatus`
tags the file uses (`FAIL_UNKNOWN`, `FAIL_VALIDATION`). -/
inductive ProfileStatus where
  | SUCCESS_DETAILS
  | FAIL_UNKNOWN
  | FAIL_VALIDATION
  deriving Repr, DecidableEq

/-- `ProfileOutcome`: the tagged union of outcome variants the profile
command produces. Each constructor pairs one status tag with its fixed body
shape: `SUCCESS_DETAILS` with the points/user-details body, `FAIL_UNKNOWN`
with the empty body `{}` (no payload), `FAIL_VALIDATION` with the
constraint/field/value/context body. -/
inductive ProfileOutcome where
  | successDetails (body : ProfileSuccessBody)
  | failUnknown
  | failValidation (body : ValidationFailureBody)
  deriving Repr, DecidableEq

/-- The `status` field of an outcome value. -/
def ProfileOutcome.status : ProfileOutcome → ProfileStatus
  | .successDetails _ => .SUCCESS_DETAILS
  | .failUnknown => .FAIL_UNKNOWN
  | .failValidation _ => .FAIL_VALIDATION

/-- The external collaborators the solver calls, as oracles: each call either
returns a value or throws (`Except.error`). `fetchMember` is keyed by guild
and member id because the code fetches the member through the fetched guild
(`(await guild).members.fetch(params.memberId)`). -/
structure SolverEnv where
  fetchGuild : String → Except String Unit
  fetchMember : String → String → Except String Member
  getOrCreateContestant : String → String → Except String Contestant
  getCareerPointsOfContestant : Contestant → Except String Int
  getCurrentTournamentByGuild : String → Except String (Option Tournament)
  getPointsOfContestantForTournament : Contestant → Tournament → Except String Int

/-- Fallback avatar URL from guildsettings.ts line 112. -/
def defaultAvatarURL : String :=
  "https://static.wikia.nocookie.net/minecraft_gamepedia/images/0/02/Pointer_%28texture%29_JE1_BE1.png"

/-- The body of `profileSolver`'s `try` block (guildsettings.ts lines 95-115):
the sequence of external calls and the assembly of the success body. Any
rejected promise surfaces here as `Except.error`. When the current-tournament
lookup yields no tournament, `currentPoints` stays the sentinel `-1`
(line 102). -/
def profileSolverRun (env : SolverEnv) (params : ProfileSolverParams) :
    Except String ProfileSuccessBody := do
  let _guild ← env.fetchGuild params.guildId
  let member ← env.fetchMember params.guildId params.memberId
  let contestant ← env.getOrCreateContestant params.guildId params.memberId
  let careerPoints ← env.getCareerPointsOfContestant contestant
  let currentTournament ← env.getCurrentTournamentByGuild params.guildId
  let currentPoints ← match currentTournament with
    | none => Except.ok (-1 : Int)
    | some t => env.getPointsOfContestantForTournament contestant t
  pure {
    currentPoints := currentPoints,
    careerPoints := careerPoints,
    userDetails := {
      name := member.displayName,
      icon := member.avatarURL.getD defaultAvatarURL } }

/-- `profileSolver` (guildsettings.ts lines 93-124): the whole `try` body,
with the `catch` that swallows every error and falls through to the
`FAIL_UNKNOWN` outcome with empty body. -/
def profileSolver (env : SolverEnv) (params : ProfileSolverParams) :
    ProfileOutcome :=
  match profileSolverRun env params with
  | .ok body => .successDetails body
  | .error _ => .failUnknown

/-- `OptionValidationError`: carries the failing constraint identifier, the
field name, the offending value, and the context message
(`err.message`). -/
structure OptionValidationError where
  constraint : String
  field : String
  value : String
  message : String
  deriving Repr, DecidableEq

/-- The possible results of `await validateConstraints(interaction,
metadataConstraints, optionConstraints)`. The engine itself lives in
`backend/architecture/validation.js`, which is not part of the sources;
the profile validator only observes whether the call returned normally,
threw an `OptionValidationError`, or threw anything else, so its result is
taken as a parameter. -/
inductive ValidateConstraintsResult where
  | ok
  | optionValidationError (e : OptionValidationError)
  | otherError (msg : String)
  deriving Repr, DecidableEq

/-- The value the validator can return or the exception it re-throws:
`Except.ok` covers the TS return type
`ProfileSolverParams | OptionValidationErrorOutcome<T1>`, `Except.error`
models a re-thrown non-validation error. -/
inductive ProfileValidatorReturn where
  | params (p : ProfileSolverParams)
  | failValidationOutcome (body : ValidationFailureBody)
  deriving Repr, DecidableEq

/-- The params-extraction expression of the validator (guildsettings.ts
lines 146-149): `guildId: interaction.guildId`,
`memberId: interaction.options.get('user', false)?.user?.id ??
interaction.member!.user.id`. The optional-chaining chain yields the
option's user id when the option and its user are present, and otherwise
falls back (`??`) to the invoking member's own user id. -/
def extractProfileParams (interaction : LimitedCommandInteraction) :
    ProfileSolverParams :=
  { guildId := interaction.guildId,
    memberId :=
      ((interaction.userOption.bind (fun o => o.user)).map
        (fun u => u.id)).getD interaction.memberUser.id }

/-- `profileSlashCommandValidator` (guildsettings.ts lines 126-150): runs
`validateConstraints` (its result passed in as `vres`); on an
`OptionValidationError` returns the `FAIL_VALIDATION` outcome carrying the
error's constraint, field, value and message; re-throws any other error;
on normal return extracts and returns the solver params. -/
def profileSlashCommandValidator (vres : ValidateConstraintsResult)
    (interaction : LimitedCommandInteraction) :
    Except String ProfileValidatorReturn :=
  match vres with
  | .optionValidationError e =>
      .ok (.failValidationOutcome
        { constraint := e.constraint, field := e.field,
          value := e.value, context := e.message })
  | .otherError msg => .error msg
  | .ok => .ok (.params (extractProfileParams interaction))

/-- The embed payload assembled by the `SUCCESS_DETAILS` renderer
(guildsettings.ts lines 153-164). -/
structure SlashCommandEmbedDescribedOutcome where
  title : String
  description : String
  thumbnail : String
  ephemeral : Bool
  deriving Repr, DecidableEq

/-- The decoder implicit in the renderer's cast
`(o as ProfileSuccessDetailsOutcome).body`: reading the success-details
body off an outcome succeeds exactly when the outcome has that shape. -/
def decodeSuccessDetailsBody : ProfileOutcome → Option ProfileSuccessBody
  | .successDetails body => some body
  | _ => none

/-- The `SUCCESS_DETAILS` entry of `profileSlashCommandDescriptions`
(guildsettings.ts lines 152-165): casts the outcome to the success-details
shape and renders the embed (title, description, thumbnail, ephemeral).
The cast is modelled by the decoder, so the renderer is defined exactly on
outcomes of the right shape. -/
def profileSuccessDetailsDescriber (o : ProfileOutcome) :
    Option SlashCommandEmbedDescribedOutcome :=
  (decodeSuccessDetailsBody o).map fun oBody =>
    { title := oBody.userDetails.name ++ "\x27s Profile",
      description := "**Current Points:** " ++ toString oBody.currentPoints
        ++ "\n**Career Points:** " ++ toString oBody.careerPoints,
      thumbnail := oBody.userDetails.icon,
      ephemeral := true }

/-! ## Helper lemmas -/

lemma exceptOkBind {ε α β : Type} (a : α) (f : α → Except ε β) :
    (Except.ok a >>= f) = f a := rfl

lemma exceptErrorBind {ε α β : Type} (e : ε) (f : α → Except ε β) :
    ((Except.error e : Except ε α) >>= f) = Except.error e := rfl

lemma profileSolver_of_run_error (env : SolverEnv) (params : ProfileSolverParams)
    (e : String) (h : profileSolverRun env params = .error e) :
    profileSolver env params = .failUnknown := by
  simp [profileSolver, h]

lemma profileSolver_of_run_ok (env : SolverEnv) (params : ProfileSolverParams)
    (b : ProfileSuccessBody) (h : profileSolverRun env params = .ok b) :
    profileSolver env params = .successDetails b := by
  simp [profileSolver, h]

lemma currentTournamentStep_eq_spec (prev curr : Tournament) :
    currentTournamentStep prev curr = specOneSidedRule prev curr := rfl

/-- An environment in which every collaborator call succeeds; used to
exercise the solver's success path on concrete data. -/
def envAllOk : SolverEnv where
  fetchGuild := fun _ => .ok ()
  fetchMember := fun _ _ => .ok { displayName := "Alice", avatarURL := none }
  getOrCreateContestant := fun _ m => .ok { id := m }
  getCareerPointsOfContestant := fun _ => .ok 7
  getCurrentTournamentByGuild := fun _ => .ok none
  getPointsOfContestantForTournament := fun _ _ => .ok 3

/-- An environment whose guild fetch rejects; used to exercise the solver's
failure boundary on concrete data. -/
def envGuildDown : SolverEnv :=
  { envAllOk with fetchGuild := fun _ => .error "ECONNRESET" }

/-! ## Claim theorems -/

/-- C1: the spec says that for a guild with no active tournament record
`getCurrentTournament` returns an absent result rather than raising an
error. The code instead calls `Array.prototype.reduce` on the filtered
array without an initial value, which throws a `TypeError` when the active
set is empty; the trailing `activeTournament ? activeTournament : null`
null-check is unreachable dead code in this case. This theorem computes the
code's actual behaviour whenever the guild has no active record: an error,
never `null`. -/
theorem getCurrentTournament_empty_active_throws
    (guildID : String) (store : List Tournament)
    (h : (store.filter (fun t => t.guildID = guildID)).filter
          (fun t => t.active) = []) :
    getCurrentTournament guildID store
      = .error "TypeError: Reduce of empty array with no initial value" := by
  simp only [getCurrentTournament, h]
  rfl

/-- Witness for C1: a guild with no tournament records at all makes
`getCurrentTournament` throw. -/
theorem getCurrentTournament_empty_active_throws_witness :
    (([] : List Tournament).filter (fun t => t.guildID = "g")).filter
        (fun t => t.active) = []
    ∧ getCurrentTournament "g" []
        = .error "TypeError: Reduce of empty array with no initial value" :=
  ⟨rfl, getCurrentTournament_empty_active_throws "g" [] rfl⟩

/-- C3: with at least two active records remaining after the filter,
`getCurrentTournament` resolves them by a left-to-right pairwise reduction
whose comparison is exactly the literal one-sided rule of the spec ("keep
prev iff prev's name is empty/missing and prev's creation timestamp is
strictly greater than curr's; otherwise take curr"): the source's reducer
coincides with the spec's rule on every pair, and the reduction is the
left fold of that rule seeded with the first active record. -/
theorem getCurrentTournament_literal_reduction :
    (∀ prev curr : Tournament,
      currentTournamentStep prev curr = specOneSidedRule prev curr)
    ∧ ∀ (guildID : String) (store : List Tournament)
        (x : Tournament) (xs : List Tournament),
        (store.filter (fun t => t.guildID = guildID)).filter
            (fun t => t.active) = x :: xs →
        getCurrentTournament guildID store
          = .ok (some (xs.foldl specOneSidedRule x)) := by
  constructor
  · exact currentTournamentStep_eq_spec
  · intro guildID store x xs h
    have hfun : currentTournamentStep = specOneSidedRule :=
      funext fun p => funext fun c => currentTournamentStep_eq_spec p c
    simp only [getCurrentTournament, h, jsReduceNoInit, hfun]

/-- Witness for C3: a store with two active named records for guild "g",
reduced left-to-right by the literal rule. -/
theorem getCurrentTournament_literal_reduction_witness :
    (([⟨⟨5⟩, "g", some "A", true⟩, ⟨⟨3⟩, "g", some "B", true⟩] :
        List Tournament).filter (fun t => t.guildID = "g")).filter
        (fun t => t.active)
      = [⟨⟨5⟩, "g", some "A", true⟩, ⟨⟨3⟩, "g", some "B", true⟩]
    ∧ getCurrentTournament "g"
        [⟨⟨5⟩, "g", some "A", true⟩, ⟨⟨3⟩, "g", some "B", true⟩]
      = .ok (some (([⟨⟨3⟩, "g", some "B", true⟩] : List Tournament).foldl
          specOneSidedRule ⟨⟨5⟩, "g", some "A", true⟩)) :=
  ⟨by decide,
    getCurrentTournament_literal_reduction.2 "g"
      [⟨⟨5⟩, "g", some "A", true⟩, ⟨⟨3⟩, "g", some "B", true⟩]
      ⟨⟨5⟩, "g", some "A", true⟩ [⟨⟨3⟩, "g", some "B", true⟩] (by decide)⟩

/-- Counterexample refuting C4 as stated: the claim says a record with an
empty/missing name never wins a comparison against a record that has a
name, regardless of timestamps. In the code's comparison, an unnamed
`prev` with a strictly greater timestamp wins against a named `curr`:
here the unnamed record (timestamp 2) beats the named record
(timestamp 1). -/
theorem currentTournamentStep_unnamed_wins_counterexample :
    currentTournamentStep ⟨⟨2⟩, "g", none, true⟩ ⟨⟨1⟩, "g", some "A", true⟩
      = ⟨⟨2⟩, "g", none, true⟩
    ∧ nameFalsy (none : Option String) = true
    ∧ nameFalsy (some "A") = false := by
  decide

/-- C4 amended: in the pairwise comparison, `prev` wins only when its name
is empty/missing and its timestamp is strictly greater than `curr`'s; a
record with a non-empty name never wins from the `prev` role (the
comparison always takes `curr`), and when `prev` is unnamed the comparison
is a pure timestamp comparison, so an unnamed record can defeat a named
one. -/
theorem currentTournamentStep_winner_characterization
    (prev curr : Tournament) :
    (nameFalsy prev.name = false → currentTournamentStep prev curr = curr)
    ∧ (nameFalsy prev.name = true →
        currentTournamentStep prev curr =
          if prev._id.getTimestampTime > curr._id.getTimestampTime
          then prev else curr) := by
  constructor
  · intro h
    simp [currentTournamentStep, h]
  · intro h
    by_cases hlt : prev._id.getTimestampTime > curr._id.getTimestampTime
    · simp [currentTournamentStep, h, hlt]
    · simp [currentTournamentStep, h, hlt]

/-- Witness for C4 amended: a named `prev` loses to an unnamed older
`curr`. -/
theorem currentTournamentStep_winner_characterization_witness :
    nameFalsy (⟨⟨9⟩, "g", some "N", true⟩ : Tournament).name = false
    ∧ currentTournamentStep ⟨⟨9⟩, "g", some "N", true⟩ ⟨⟨1⟩, "g", none, true⟩
      = ⟨⟨1⟩, "g", none, true⟩ :=
  ⟨by decide,
    (currentTournamentStep_winner_characterization
      ⟨⟨9⟩, "g", some "N", true⟩ ⟨⟨1⟩, "g", none, true⟩).1 (by decide)⟩

/-- Counterexample refuting C5 as stated: two active records for guild
"g", both named, distinct creation timestamps; the store lists the
later-created one (timestamp 5) first. The claim says the later-created
record wins regardless of store order, but `getCurrentTournament` returns
the earlier-created record (timestamp 3), because with `prev` named the
reduction always takes `curr`, i.e. the last-listed record. -/
theorem getCurrentTournament_two_named_counterexample :
    getCurrentTournament "g"
        [⟨⟨5⟩, "g", some "A", true⟩, ⟨⟨3⟩, "g", some "B", true⟩]
      = .ok (some ⟨⟨3⟩, "g", some "B", true⟩)
    ∧ (3 : Nat) < 5
    ∧ nameFalsy (some "A") = false ∧ nameFalsy (some "B") = false :=
  ⟨rfl, by decide⟩

/-- C5 amended: for a guild whose store holds exactly two active records
where the first-listed one has a non-empty name, `getCurrentTournament`
returns the record the store lists second, regardless of the two creation
timestamps — so when the later-created record happens to be listed first,
the earlier-created one is returned. -/
theorem getCurrentTournament_two_actives_last_listed
    (g : String) (t1 t2 : Tournament)
    (h1 : t1.guildID = g) (h2 : t2.guildID = g)
    (ha1 : t1.active = true) (ha2 : t2.active = true)
    (hn : nameFalsy t1.name = false) :
    getCurrentTournament g [t1, t2] = .ok (some t2) := by
  simp only [getCurrentTournament, List.filter, h1, h2, ha1, ha2,
    decide_eq_true_eq]
  simp [h1, h2, ha1, ha2, jsReduceNoInit, currentTournamentStep, hn]

/-- Witness for C5 amended: the two-record store of the counterexample. -/
theorem getCurrentTournament_two_actives_last_listed_witness :
    getCurrentTournament "g"
        [⟨⟨5⟩, "g", some "A", true⟩, ⟨⟨3⟩, "g", some "B", true⟩]
      = .ok (some ⟨⟨3⟩, "g", some "B", true⟩) :=
  getCurrentTournament_two_actives_last_listed "g"
    ⟨⟨5⟩, "g", some "A", true⟩ ⟨⟨3⟩, "g", some "B", true⟩
    rfl rfl rfl rfl (by decide)

/-- C2: the solver's scoped failure boundary. Every run of `profileSolver`
yields either a `SUCCESS_DETAILS` outcome or the `FAIL_UNKNOWN` outcome
with empty body — no exception escapes. If any external call rejects
(guild fetch, member fetch, contestant get-or-create, career-points query,
current-tournament lookup, or the per-tournament points query when a
current tournament exists), the result is the `FAIL_UNKNOWN` outcome; when
the whole `try` body succeeds, the result is the `SUCCESS_DETAILS` outcome
carrying that body. -/
theorem profileSolver_failure_boundary
    (env : SolverEnv) (params : ProfileSolverParams) :
    ((∃ b, profileSolver env params = .successDetails b)
      ∨ profileSolver env params = .failUnknown)
    ∧ (∀ e, env.fetchGuild params.guildId = .error e →
        profileSolver env params = .failUnknown)
    ∧ (∀ e, env.fetchMember params.guildId params.memberId = .error e →
        profileSolver env params = .failUnknown)
    ∧ (∀ e, env.getOrCreateContestant params.guildId params.memberId
          = .error e →
        profileSolver env params = .failUnknown)
    ∧ (∀ c e, env.getOrCreateContestant params.guildId params.memberId
          = .ok c →
        env.getCareerPointsOfContestant c = .error e →
        profileSolver env params = .failUnknown)
    ∧ (∀ e, env.getCurrentTournamentByGuild params.guildId = .error e →
        profileSolver env params = .failUnknown)
    ∧ (∀ c t e, env.getOrCreateContestant params.guildId params.memberId
          = .ok c →
        env.getCurrentTournamentByGuild params.guildId = .ok (some t) →
        env.getPointsOfContestantForTournament c t = .error e →
        profileSolver env params = .failUnknown)
    ∧ (∀ b, profileSolverRun env params = .ok b →
        profileSolver env params = .successDetails b) := by
  refine ⟨?_, ?_, ?_, ?_, ?_, ?_, ?_, ?_⟩
  · rcases hres : profileSolverRun env params with e | b
    · exact Or.inr (profileSolver_of_run_error env params e hres)
    · exact Or.inl ⟨b, profileSolver_of_run_ok env params b hres⟩
  · intro e h
    exact profileSolver_of_run_error env params e
      (by simp [profileSolverRun, h, exceptErrorBind])
  · intro e h
    rcases hg : env.fetchGuild params.guildId with e1 | u
    · exact profileSolver_of_run_error env params e1
        (by simp [profileSolverRun, hg, exceptErrorBind])
    · exact profileSolver_of_run_error env params e
        (by simp [profileSolverRun, hg, h, exceptOkBind, exceptErrorBind])
  · intro e h
    rcases hg : env.fetchGuild params.guildId with e1 | u
    · exact profileSolver_of_run_error env params e1
        (by simp [profileSolverRun, hg, exceptErrorBind])
    · rcases hm : env.fetchMember params.guildId params.memberId with e2 | m
      · exact profileSolver_of_run_error env params e2
          (by simp [profileSolverRun, hg, hm, exceptOkBind, exceptErrorBind])
      · exact profileSolver_of_run_error env params e
          (by simp [profileSolverRun, hg, hm, h, exceptOkBind, exceptErrorBind])
  · intro c e hc h
    rcases hg : env.fetchGuild params.guildId with e1 | u
    · exact profileSolver_of_run_error env params e1
        (by simp [profileSolverRun, hg, exceptErrorBind])
    · rcases hm : env.fetchMember params.guildId params.memberId with e2 | m
      · exact profileSolver_of_run_error env params e2
          (by simp [profileSolverRun, hg, hm, exceptOkBind, exceptErrorBind])
      · exact profileSolver_of_run_error env params e
          (by simp [profileSolverRun, hg, hm, hc, h, exceptOkBind,
            exceptErrorBind])
  · intro e h
    rcases hg : env.fetchGuild params.guildId with e1 | u
    · exact profileSolver_of_run_error env params e1
        (by simp [profileSolverRun, hg, exceptErrorBind])
    · rcases hm : env.fetchMember params.guildId params.memberId with e2 | m
      · exact profileSolver_of_run_error env params e2
          (by simp [profileSolverRun, hg, hm, exceptOkBind, exceptErrorBind])
      · rcases hc : env.getOrCreateContestant params.guildId params.memberId
            with e3 | c
        · exact profileSolver_of_run_error env params e3
            (by simp [profileSolverRun, hg, hm, hc, exceptOkBind,
              exceptErrorBind])
        · rcases hk : env.getCareerPointsOfContestant c with e4 | k
          · exact profileSolver_of_run_error env params e4
              (by simp [profileSolverRun, hg, hm, hc, hk, exceptOkBind,
                exceptErrorBind])
          · exact profileSolver_of_run_error env params e
              (by simp [profileSolverRun, hg, hm, hc, hk, h, exceptOkBind,
                exceptErrorBind])
  · intro c t e hc hct h
    rcases hg : env.fetchGuild params.guildId with e1 | u
    · exact profileSolver_of_run_error env params e1
        (by simp [profileSolverRun, hg, exceptErrorBind])
    · rcases hm : env.fetchMember params.guildId params.memberId with e2 | m
      · exact profileSolver_of_run_error env params e2
          (by simp [profileSolverRun, hg, hm, exceptOkBind, exceptErrorBind])
      · rcases hk : env.getCareerPointsOfContestant c with e4 | k
        · exact profileSolver_of_run_error env params e4
            (by simp [profileSolverRun, hg, hm, hc, hk, exceptOkBind,
              exceptErrorBind])
        · exact profileSolver_of_run_error env params e
            (by simp [profileSolverRun, hg, hm, hc, hk, hct, h,
              exceptOkBind, exceptErrorBind])
  · intro b h
    exact profileSolver_of_run_ok env params b h

/-- Witness for C2: a rejected guild fetch yields the `FAIL_UNKNOWN`
outcome. -/
theorem profileSolver_failure_boundary_witness :
    profileSolver envGuildDown { guildId := "g", memberId := "m" }
      = .failUnknown :=
  (profileSolver_failure_boundary envGuildDown
    { guildId := "g", memberId := "m" }).2.1 "ECONNRESET" rfl

/-- C6: when constraint validation throws an `OptionValidationError`, the
validator returns a data outcome with status `FAIL_VALIDATION` whose body
carries exactly the failing constraint, the field name, the offending
value, and the context message; the error is never re-raised past this
stage (the result is `Except.ok`, not `Except.error`). -/
theorem profileValidator_validation_error_to_outcome
    (e : OptionValidationError) (inter : LimitedCommandInteraction) :
    profileSlashCommandValidator (.optionValidationError e) inter
      = .ok (.failValidationOutcome
          { constraint := e.constraint, field := e.field,
            value := e.value, context := e.message }) := rfl

/-- C8: when constraint validation throws anything that is not an
`OptionValidationError`, the validator re-throws it unchanged, so it
propagates to the orchestrator as fatal rather than being converted into
an outcome. -/
theorem profileValidator_rethrows_non_validation
    (msg : String) (inter : LimitedCommandInteraction) :
    profileSlashCommandValidator (.otherError msg) inter = .error msg := rfl

/-- C7: when the interaction carries no explicit `user` option, or carries
one with no user id, the validator returns `SolverParams` whose `memberId`
is the invoking member's own id; and the solver keys its member fetch and
contestant get-or-create by `params.memberId` (the invoking member's id),
so its outcome depends on those collaborators only at that id — no raw
request field is consulted. -/
theorem profileValidator_defaults_to_invoking_member
    (inter : LimitedCommandInteraction)
    (hno : inter.userOption.bind (fun o => o.user) = none) :
    profileSlashCommandValidator .ok inter
      = .ok (.params
          { guildId := inter.guildId, memberId := inter.memberUser.id })
    ∧ ∀ env env' : SolverEnv,
        env.fetchGuild = env'.fetchGuild →
        env.fetchMember inter.guildId inter.memberUser.id
          = env'.fetchMember inter.guildId inter.memberUser.id →
        env.getOrCreateContestant inter.guildId inter.memberUser.id
          = env'.getOrCreateContestant inter.guildId inter.memberUser.id →
        env.getCareerPointsOfContestant = env'.getCareerPointsOfContestant →
        env.getCurrentTournamentByGuild = env'.getCurrentTournamentByGuild →
        env.getPointsOfContestantForTournament
          = env'.getPointsOfContestantForTournament →
        profileSolver env
            { guildId := inter.guildId, memberId := inter.memberUser.id }
          = profileSolver env'
            { guildId := inter.guildId, memberId := inter.memberUser.id } := by
  constructor
  · simp [profileSlashCommandValidator, extractProfileParams, hno]
  · intro env env' h1 h2 h3 h4 h5 h6
    dsimp only [profileSolver, profileSolverRun]
    rw [h1, h2, h3, h4, h5, h6]

/-- Witness for C7: an interaction with no `user` option defaults the
target to the invoking member's id, and the solver is insensitive to
collaborator behaviour away from that id. -/
theorem profileValidator_defaults_to_invoking_member_witness :
    profileSlashCommandValidator .ok
        { guildId := "g", userOption := none, memberUser := { id := "invoker" } }
      = .ok (.params { guildId := "g", memberId := "invoker" })
    ∧ profileSolver envAllOk { guildId := "g", memberId := "invoker" }
      = profileSolver envAllOk { guildId := "g", memberId := "invoker" } :=
  ⟨(profileValidator_defaults_to_invoking_member
      { guildId := "g", userOption := none, memberUser := { id := "invoker" } }
      rfl).1,
   (profileValidator_defaults_to_invoking_member
      { guildId := "g", userOption := none, memberUser := { id := "invoker" } }
      rfl).2 envAllOk envAllOk rfl rfl rfl rfl rfl rfl⟩

/-- C9: the outcome invariant. The status tag of a `ProfileOutcome` value
uniquely determines the shape of its body (`SUCCESS_DETAILS` pairs exactly
with the points/user-details body, `FAIL_UNKNOWN` exactly with the empty
body, `FAIL_VALIDATION` exactly with the constraint/field/value/context
body); the decoder implicit in the `SUCCESS_DETAILS` renderer's cast
succeeds exactly on `SUCCESS_DETAILS` outcomes; and for every solver-
produced outcome whose status is `SUCCESS_DETAILS`, the renderer produces
its embed — it never faces a body of the wrong shape. -/
theorem profileOutcome_status_determines_body :
    (∀ o : ProfileOutcome,
      (o.status = ProfileStatus.SUCCESS_DETAILS
        ↔ ∃ b, o = .successDetails b)
      ∧ (o.status = ProfileStatus.FAIL_UNKNOWN ↔ o = .failUnknown)
      ∧ (o.status = ProfileStatus.FAIL_VALIDATION
        ↔ ∃ b, o = .failValidation b))
    ∧ (∀ o : ProfileOutcome,
        ((decodeSuccessDetailsBody o).isSome = true
          ↔ o.status = ProfileStatus.SUCCESS_DETAILS))
    ∧ (∀ (env : SolverEnv) (params : ProfileSolverParams),
        (profileSolver env params).status = ProfileStatus.SUCCESS_DETAILS →
        (profileSuccessDetailsDescriber (profileSolver env params)).isSome
          = true) := by
  refine ⟨?_, ?_, ?_⟩
  · intro o
    cases o <;> simp [ProfileOutcome.status]
  · intro o
    cases o <;> simp [decodeSuccessDetailsBody, ProfileOutcome.status]
  · intro env params h
    cases ho : profileSolver env params with
    | successDetails b =>
        simp [profileSuccessDetailsDescriber, decodeSuccessDetailsBody, ho]
    | failUnknown =>
        rw [ho] at h
        simp [ProfileOutcome.status] at h
    | failValidation b =>
        rw [ho] at h
        simp [ProfileOutcome.status] at h

/-- Witness for C9: the fully successful environment yields a
`SUCCESS_DETAILS` outcome that the renderer decodes. -/
theorem profileOutcome_status_determines_body_witness :
    (profileSuccessDetailsDescriber
      (profileSolver envAllOk { guildId := "g", memberId := "m" })).isSome
      = true :=
  profileOutcome_status_determines_body.2.2 envAllOk
    { guildId := "g", memberId := "m" } rfl

/-- C10: when every external call succeeds and the current-tournament
lookup yields no tournament, the solver still returns a `SUCCESS_DETAILS`
outcome whose `currentPoints` is the sentinel `-1` while `careerPoints`
is the value the career-points query computed. -/
theorem profileSolver_no_current_tournament_sentinel
    (env : SolverEnv) (params : ProfileSolverParams)
    (m : Member) (c : Contestant) (k : Int)
    (hg : env.fetchGuild params.guildId = .ok ())
    (hm : env.fetchMember params.guildId params.memberId = .ok m)
    (hc : env.getOrCreateContestant params.guildId params.memberId = .ok c)
    (hk : env.getCareerPointsOfContestant c = .ok k)
    (hct : env.getCurrentTournamentByGuild params.guildId = .ok none) :
    profileSolver env params
      = .successDetails
          { currentPoints := -1, careerPoints := k,
            userDetails := { name := m.displayName,
                             icon := m.avatarURL.getD defaultAvatarURL } } := by
  apply profileSolver_of_run_ok
  simp [profileSolverRun, hg, hm, hc, hk, hct, exceptOkBind]

/-- Witness for C10: with all calls succeeding and no current tournament,
the solver returns `currentPoints = -1` and the queried career points. -/
theorem profileSolver_no_current_tournament_sentinel_witness :
    profileSolver envAllOk { guildId := "g", memberId := "m" }
      = .successDetails
          { currentPoints := -1, careerPoints := 7,
            userDetails := { name := "Alice", icon := defaultAvatarURL } } :=
  profileSolver_no_current_tournament_sentinel envAllOk
    { guildId := "g", memberId := "m" }
    { displayName := "Alice", avatarURL := none } { id := "m" } 7
    rfl rfl rfl rfl rfl
